import Mathlib

/-!
Shallow embedding of `plot_sma_rsi_macd.py` (Stock-Tools repository).

The script builds a pandas DataFrame of daily closes, adds indicator columns
(SMA20, SMA50, RSI, MACD, MACD_SIGNAL), and evaluates a buy signal from the
last two rows.  We model a DataFrame row as a record whose indicator cells are
`Option ℚ`: a Python float NaN (undefined / warm-up value) is `none`, and the
comparison helpers below reproduce IEEE semantics for the comparisons the
script performs — any comparison touching a NaN is `false`.
-/

/-- One row of the enriched DataFrame: timestamp (modelled as a natural
index), close price, and the five indicator cells added by
`calculate_indicators`.  `none` stands for the float NaN that pandas puts in
warm-up rows. -/
structure IndicatorRow where
  ts : Nat
  close : ℚ
  sma20 : Option ℚ
  sma50 : Option ℚ
  rsi : Option ℚ
  macd : Option ℚ
  macdSignal : Option ℚ
  deriving DecidableEq, Repr

/-- Default row used for total indexing (never reached on guarded paths). -/
def dRow : IndicatorRow := ⟨0, 0, none, none, none, none, none⟩

/-- One raw price point as fetched: timestamp and close. -/
structure PricePoint where
  ts : Nat
  close : ℚ
  deriving DecidableEq, Repr

/-- Python `a < b` on float cells: false whenever either side is NaN. -/
def oLt (a b : Option ℚ) : Bool :=
  match a, b with
  | some x, some y => decide (x < y)
  | _, _ => false

/-- Python `a > b` on float cells: false whenever either side is NaN. -/
def oGt (a b : Option ℚ) : Bool :=
  match a, b with
  | some x, some y => decide (y < x)
  | _, _ => false

/-- Python `a < c` against a numeric literal: false when `a` is NaN. -/
def oLtC (a : Option ℚ) (c : ℚ) : Bool :=
  match a with
  | some x => decide (x < c)
  | none => false

/-- Python `a >= c` against a numeric literal: false when `a` is NaN. -/
def oGeC (a : Option ℚ) (c : ℚ) : Bool :=
  match a with
  | some x => decide (c ≤ x)
  | none => false

/-- The `signals` dict of `check_buy_signal`: an insertion-ordered string-keyed
map of booleans, as a Python dict literal builds it. -/
abbrev Signals := List (String × Bool)

/-- Python dict assignment `d[k] = v`: replace the value at an existing key in
place, or append the key. -/
def dictSet (d : Signals) (k : String) (v : Bool) : Signals :=
  match d with
  | [] => [(k, v)]
  | (k2, v2) :: rest => if k2 = k then (k, v) :: rest else (k2, v2) :: dictSet rest k v

/-- Python `sum(signals.values())`: the number of `true` values in the dict. -/
def sumValues (s : Signals) : Nat :=
  (s.filter (fun kv => kv.2)).length

/-- The signals dict with its three keys in insertion order, one boolean per
flag; `check_buy_signal` always returns a dict of this shape on inputs of
length ≥ 2. -/
def threeFlags (b1 b2 b3 : Bool) : Signals :=
  [("sma_crossover", b1), ("rsi_oversold", b2), ("macd_crossover", b3)]

/-- `check_buy_signal(df)` (lines 30-55): returns `(overall, buy_date, signals)`.
For `len(df) < 2` the script returns `(False, None, {})` — the empty dict.
Otherwise `yesterday = df.iloc[-2]`, `today = df.iloc[-1]`, the three flag
conditions use float comparisons (false on NaN), `match_count` sums the dict
values and `overall = match_count >= 2`; `df.index[-1]` is the last row's
timestamp. -/
def check_buy_signal (df : List IndicatorRow) : Bool × Option Nat × Signals :=
  if df.length < 2 then (false, none, [])
  else
    let yesterday := df.getD (df.length - 2) dRow
    let today := df.getD (df.length - 1) dRow
    let signals : Signals :=
      [("sma_crossover", false), ("rsi_oversold", false), ("macd_crossover", false)]
    let signals :=
      if oLt yesterday.sma20 yesterday.sma50 && oGt today.sma20 today.sma50 then
        dictSet signals "sma_crossover" true
      else signals
    let signals :=
      if oLtC yesterday.rsi 30 && oGeC today.rsi 30 then
        dictSet signals "rsi_oversold" true
      else signals
    let signals :=
      if oLt yesterday.macd yesterday.macdSignal && oGt today.macd today.macdSignal then
        dictSet signals "macd_crossover" true
      else signals
    let match_count := sumValues signals
    let overall := decide (2 ≤ match_count)
    (overall, some today.ts, signals)

/-- The confidence figure printed by `print_signal_breakdown` (lines 97-98):
`int((match_count / 3) * 100)` with `match_count = sum(signals.values())`.
Python `int()` truncates toward zero, which is `floor` on the non-negative
values arising here; the exact-rational floor agrees with the Python float
computation at every reachable count (0, 1, 2, 3). -/
def print_confidence (signals : Signals) : ℤ :=
  ⌊((sumValues signals : ℚ) / 3) * 100⌋

/-- Pandas `close.rolling(window=w).mean()` (lines 18-19): the value at index
`i` is the mean of the `w` closes ending at `i` when at least `w` observations
exist (`w ≤ i + 1`), and NaN (`none`) otherwise — `min_periods` defaults to
the window size. -/
def rollingMean (w : Nat) (close : List ℚ) : List (Option ℚ) :=
  (List.range close.length).map (fun i =>
    if w ≤ i + 1 then some (((close.drop (i + 1 - w)).take w).sum / (w : ℚ)) else none)

/-- Day-over-day close deltas: `diffs[i] = close[i+1] - close[i]`, length one
less than the close series. -/
def diffs (close : List ℚ) : List ℚ :=
  match close with
  | [] => []
  | _ :: rest => List.zipWith (fun b a => b - a) rest close

/-- One step of Wilder's smoothing: each new average is
`(prev * (w - 1) + x) / w`. -/
def wilderStep (w : Nat) (avg : ℚ) (xs : List ℚ) : List ℚ :=
  match xs with
  | [] => []
  | x :: rest =>
      let a := (avg * ((w : ℚ) - 1) + x) / (w : ℚ)
      a :: wilderStep w a rest

/-- Wilder's smoothed averages of `xs` with window `w`: seeded by the simple
mean of the first `w` values, then the smoothing recurrence; produces one
value per position from `w - 1` on (empty when fewer than `w` values). -/
def wilderAvg (w : Nat) (xs : List ℚ) : List ℚ :=
  if w ≤ xs.length then
    let seed := ((xs.take w).sum) / (w : ℚ)
    seed :: wilderStep w seed (xs.drop w)
  else []

/-- Modelled from the spec: the `ta` library's `RSIIndicator(close, 14).rsi()`
(line 21-22) is external library code; per the spec, RSI(14) uses Wilder's
smoothing of gains and losses of day-over-day deltas, is undefined for the
first 14 rows, equals 100 when the average loss is 0 and the average gain is
positive, and `100 * avgGain / (avgGain + avgLoss)` otherwise (undefined on a
flat warm-up where both averages are 0, matching the NaN the library yields
there). -/
def rsiList (close : List ℚ) : List (Option ℚ) :=
  let d := diffs close
  let gains := d.map (fun x => max x 0)
  let losses := d.map (fun x => max (-x) 0)
  let avgGains := wilderAvg 14 gains
  let avgLosses := wilderAvg 14 losses
  let defined := List.zipWith
    (fun ag al => if ag + al = 0 then (none : Option ℚ) else some (100 * ag / (ag + al)))
    avgGains avgLosses
  List.replicate (min close.length 14) none ++ defined

/-- Recurrence part of an exponential moving average: each new value is
`α * x + (1 - α) * prev`. -/
def emaFrom (a e : ℚ) (xs : List ℚ) : List ℚ :=
  match xs with
  | [] => []
  | x :: rest =>
      let e2 := a * x + (1 - a) * e
      e2 :: emaFrom a e2 rest

/-- Modelled from the spec: EMA with period `p`, seeded by the SMA of the
first `p` values, then the recurrence with `α = 2 / (p + 1)`; undefined for
the first `p - 1` positions. -/
def ema (p : Nat) (xs : List ℚ) : List (Option ℚ) :=
  if p ≤ xs.length then
    let seed := ((xs.take p).sum) / (p : ℚ)
    List.replicate (p - 1) (none : Option ℚ) ++
      some seed :: (emaFrom (2 / ((p : ℚ) + 1)) seed (xs.drop p)).map some
  else List.replicate xs.length none

/-- Modelled from the spec: the `ta` library's `MACD(...).macd()` (lines
24-25) — fast EMA(12) minus slow EMA(26) of close, undefined until the slow
EMA is defined. -/
def macdList (close : List ℚ) : List (Option ℚ) :=
  List.zipWith
    (fun f s =>
      match f, s with
      | some a, some b => some (a - b)
      | _, _ => none)
    (ema 12 close) (ema 26 close)

/-- Modelled from the spec: `MACD(...).macd_signal()` (line 26) — EMA(9) of
the defined part of the MACD series, undefined until 9 defined MACD values
accumulate. -/
def macdSignalList (close : List ℚ) : List (Option ℚ) :=
  let m := macdList close
  let undef := (m.takeWhile (fun c => c.isNone)).length
  List.replicate undef (none : Option ℚ) ++ ema 9 ((m.drop undef).filterMap id)

/-- `calculate_indicators(df)` (lines 17-28): adds the SMA20, SMA50, RSI,
MACD and MACD_SIGNAL columns to the DataFrame and returns it.  Each column
assignment `df['X'] = series` aligns the series on the index, filling NaN
where the series has no value; the timestamps and closes of the rows are
untouched. -/
def calculate_indicators (df : List PricePoint) : List IndicatorRow :=
  let close := df.map PricePoint.close
  let s20 := rollingMean 20 close
  let s50 := rollingMean 50 close
  let r := rsiList close
  let m := macdList close
  let ms := macdSignalList close
  (List.range df.length).map (fun i =>
    { ts := (df.getD i ⟨0, 0⟩).ts
      close := (df.getD i ⟨0, 0⟩).close
      sma20 := s20.getD i none
      sma50 := s50.getD i none
      rsi := r.getD i none
      macd := m.getD i none
      macdSignal := ms.getD i none })

/-- `fetch_stock_data` (lines 10-15), abstracted over the series the yfinance
collaborator returns: the rows' close cells (NaN as `none`).  Raises
`ValueError` — the spec's NoDataError — iff `df.empty or df['Close'].isna().all()`,
else returns the DataFrame unchanged. -/
def fetch_stock_data (df : List (Option ℚ)) : Except String (List (Option ℚ)) :=
  if df.isEmpty || df.all (fun c => c.isNone) then
    Except.error "No data for ticker. Is it delisted or incorrect?"
  else
    Except.ok df

/-- The `yesterday` row of `check_buy_signal`: `df.iloc[-2]`. -/
def prevRow (df : List IndicatorRow) : IndicatorRow := df.getD (df.length - 2) dRow

/-- The `today` row of `check_buy_signal`: `df.iloc[-1]`. -/
def curRow (df : List IndicatorRow) : IndicatorRow := df.getD (df.length - 1) dRow

/-- The SMA crossover condition of line 43 on the last two rows. -/
def smaFlag (df : List IndicatorRow) : Bool :=
  oLt (prevRow df).sma20 (prevRow df).sma50 && oGt (curRow df).sma20 (curRow df).sma50

/-- The RSI recovery condition of line 46 on the last two rows. -/
def rsiFlag (df : List IndicatorRow) : Bool :=
  oLtC (prevRow df).rsi 30 && oGeC (curRow df).rsi 30

/-- The MACD crossover condition of line 49 on the last two rows. -/
def macdFlag (df : List IndicatorRow) : Bool :=
  oLt (prevRow df).macd (prevRow df).macdSignal && oGt (curRow df).macd (curRow df).macdSignal

lemma oLt_none_left (b : Option ℚ) : oLt none b = false := rfl

lemma oLt_none_right (a : Option ℚ) : oLt a none = false := by cases a <;> rfl

lemma oGt_none_left (b : Option ℚ) : oGt none b = false := rfl

lemma oGt_none_right (a : Option ℚ) : oGt a none = false := by cases a <;> rfl

lemma oLtC_none (c : ℚ) : oLtC none c = false := rfl

lemma oGeC_none (c : ℚ) : oGeC none c = false := rfl

lemma lookup_threeFlags_sma (b1 b2 b3 : Bool) :
    List.lookup "sma_crossover" (threeFlags b1 b2 b3) = some b1 := rfl

lemma lookup_threeFlags_rsi (b1 b2 b3 : Bool) :
    List.lookup "rsi_oversold" (threeFlags b1 b2 b3) = some b2 := rfl

lemma lookup_threeFlags_macd (b1 b2 b3 : Bool) :
    List.lookup "macd_crossover" (threeFlags b1 b2 b3) = some b3 := rfl

lemma sumValues_threeFlags (b1 b2 b3 : Bool) :
    sumValues (threeFlags b1 b2 b3) = b1.toNat + b2.toNat + b3.toNat := by
  cases b1 <;> cases b2 <;> cases b3 <;> rfl

/-- On any input of length ≥ 2, `check_buy_signal` returns exactly the
three-key dict with the three flag conditions evaluated on the last two rows,
the last row's timestamp, and the two-of-three trigger. -/
lemma check_buy_signal_eq (df : List IndicatorRow) (h : 2 ≤ df.length) :
    check_buy_signal df =
      (decide (2 ≤ sumValues (threeFlags (smaFlag df) (rsiFlag df) (macdFlag df))),
       some (curRow df).ts,
       threeFlags (smaFlag df) (rsiFlag df) (macdFlag df)) := by
  unfold check_buy_signal
  rw [if_neg (by omega)]
  simp only [smaFlag, rsiFlag, macdFlag, prevRow, curRow, threeFlags]
  rcases Bool.eq_false_or_eq_true
      (oLt (df.getD (df.length - 2) dRow).sma20 (df.getD (df.length - 2) dRow).sma50
        && oGt (df.getD (df.length - 1) dRow).sma20 (df.getD (df.length - 1) dRow).sma50)
    with hb1 | hb1 <;>
  rcases Bool.eq_false_or_eq_true
      (oLtC (df.getD (df.length - 2) dRow).rsi 30 && oGeC (df.getD (df.length - 1) dRow).rsi 30)
    with hb2 | hb2 <;>
  rcases Bool.eq_false_or_eq_true
      (oLt (df.getD (df.length - 2) dRow).macd (df.getD (df.length - 2) dRow).macdSignal
        && oGt (df.getD (df.length - 1) dRow).macd (df.getD (df.length - 1) dRow).macdSignal)
    with hb3 | hb3 <;>
  simp only [hb1, hb2, hb3] <;> rfl

lemma getD_range_map {β : Type} (n : Nat) (f : Nat → β) (d : β) (i : Nat) (h : i < n) :
    (((List.range n).map f).getD i d) = f i := by
  rw [List.getD_eq_getElem?_getD, List.getElem?_map, List.getElem?_range h]
  rfl

lemma range_map_getD {α β : Type} (l : List α) (d : α) (g : α → β) :
    (List.range l.length).map (fun i => g (l.getD i d)) = l.map g := by
  apply List.ext_getElem?
  intro j
  by_cases hj : j < l.length
  · rw [List.getElem?_map, List.getElem?_range hj, List.getElem?_map,
      List.getElem?_eq_getElem hj]
    simp [List.getD_eq_getElem?_getD, List.getElem?_eq_getElem hj]
  · have h1 : l.length ≤ j := Nat.le_of_not_lt hj
    rw [List.getElem?_map, List.getElem?_map,
      List.getElem?_eq_none (by simpa using h1), List.getElem?_eq_none h1]
    rfl

lemma length_calculate_indicators (df : List PricePoint) :
    (calculate_indicators df).length = df.length := by
  simp [calculate_indicators]

lemma calculate_indicators_getD (df : List PricePoint) (i : Nat) (h : i < df.length) :
    (calculate_indicators df).getD i dRow =
      { ts := (df.getD i ⟨0, 0⟩).ts
        close := (df.getD i ⟨0, 0⟩).close
        sma20 := (rollingMean 20 (df.map PricePoint.close)).getD i none
        sma50 := (rollingMean 50 (df.map PricePoint.close)).getD i none
        rsi := (rsiList (df.map PricePoint.close)).getD i none
        macd := (macdList (df.map PricePoint.close)).getD i none
        macdSignal := (macdSignalList (df.map PricePoint.close)).getD i none } := by
  unfold calculate_indicators
  exact getD_range_map df.length _ dRow i h

lemma rollingMean_getD (w : Nat) (close : List ℚ) (i : Nat) (h : i < close.length) :
    (rollingMean w close).getD i none
      = if w ≤ i + 1 then some (((close.drop (i + 1 - w)).take w).sum / (w : ℚ)) else none := by
  unfold rollingMean
  exact getD_range_map close.length _ none i h

/-- C1: for every indicator sequence of length ≥ 2, the `overall` result of
`check_buy_signal` is true exactly when at least 2 of the 3 returned flags are
true, over all flag combinations. -/
theorem triggered_iff_two_of_three (df : List IndicatorRow) (h : 2 ≤ df.length) :
    (check_buy_signal df).1 = true ↔ 2 ≤ sumValues (check_buy_signal df).2.2 := by
  rw [check_buy_signal_eq df h]
  simp

/-- Witness for C1 at a concrete two-row input. -/
theorem triggered_iff_two_of_three_witness :
    (check_buy_signal
        [⟨0, 1, none, none, none, none, none⟩, ⟨1, 1, none, none, none, none, none⟩]).1 = true
      ↔ 2 ≤ sumValues (check_buy_signal
        [⟨0, 1, none, none, none, none, none⟩, ⟨1, 1, none, none, none, none, none⟩]).2.2 :=
  triggered_iff_two_of_three
    [⟨0, 1, none, none, none, none, none⟩, ⟨1, 1, none, none, none, none, none⟩] (by decide)

/-- C7: for every indicator sequence of length ≥ 2, the `buy_date` returned by
`check_buy_signal` is the timestamp of the last row, whether or not the signal
triggered. -/
theorem asOf_last_timestamp (df : List IndicatorRow) (h : 2 ≤ df.length) :
    (check_buy_signal df).2.1 = df.getLast?.map IndicatorRow.ts := by
  rw [check_buy_signal_eq df h]
  have hlt : df.length - 1 < df.length := by omega
  unfold curRow
  rw [List.getLast?_eq_getElem?, List.getD_eq_getElem?_getD, List.getElem?_eq_getElem hlt]
  rfl

/-- Witness for C7 at a concrete two-row input. -/
theorem asOf_last_timestamp_witness :
    (check_buy_signal
        [⟨3, 1, none, none, none, none, none⟩, ⟨7, 1, none, none, none, none, none⟩]).2.1
      = ([⟨3, 1, none, none, none, none, none⟩,
          ⟨7, 1, none, none, none, none, none⟩] : List IndicatorRow).getLast?.map IndicatorRow.ts :=
  asOf_last_timestamp
    [⟨3, 1, none, none, none, none, none⟩, ⟨7, 1, none, none, none, none, none⟩] (by decide)

/-- C8: the Signal Evaluator is deterministic — evaluating equal input
sequences yields identical decision triples. -/
theorem evaluator_deterministic (df1 df2 : List IndicatorRow) (h : df1 = df2) :
    check_buy_signal df1 = check_buy_signal df2 := by rw [h]

/-- Witness for C8 at a concrete input. -/
theorem evaluator_deterministic_witness :
    check_buy_signal [⟨0, 1, none, none, none, none, none⟩]
      = check_buy_signal [⟨0, 1, none, none, none, none, none⟩] :=
  evaluator_deterministic [⟨0, 1, none, none, none, none, none⟩]
    [⟨0, 1, none, none, none, none, none⟩] rfl

/-- C4 counterexample: on the empty input the script returns `(False, None, {})`
with an empty flags dict, so none of the three flag keys maps to `false` —
looking any of them up yields nothing rather than a false flag. -/
theorem short_input_counterexample :
    check_buy_signal ([] : List IndicatorRow) = (false, none, [])
  ∧ List.lookup "sma_crossover" (check_buy_signal ([] : List IndicatorRow)).2.2 ≠ some false
  ∧ List.lookup "rsi_oversold" (check_buy_signal ([] : List IndicatorRow)).2.2 ≠ some false
  ∧ List.lookup "macd_crossover" (check_buy_signal ([] : List IndicatorRow)).2.2 ≠ some false := by
  decide

/-- C4 as amended: for every indicator sequence of length < 2,
`check_buy_signal` returns triggered = false, no timestamp, and an *empty*
flags dict (hence no flag is true and the derived confidence is 0). -/
theorem short_input_decision (df : List IndicatorRow) (h : df.length < 2) :
    check_buy_signal df = (false, none, [])
  ∧ sumValues (check_buy_signal df).2.2 = 0
  ∧ print_confidence (check_buy_signal df).2.2 = 0 := by
  have hr : check_buy_signal df = (false, none, []) := by
    unfold check_buy_signal
    rw [if_pos h]
  refine ⟨hr, ?_, ?_⟩ <;> rw [hr]
  · rfl
  · norm_num [print_confidence, sumValues]

/-- Witness for the amended C4 at a concrete one-row input. -/
theorem short_input_decision_witness :
    check_buy_signal ([⟨0, 1, none, none, none, none, none⟩] : List IndicatorRow)
      = (false, none, [])
  ∧ sumValues (check_buy_signal
      ([⟨0, 1, none, none, none, none, none⟩] : List IndicatorRow)).2.2 = 0
  ∧ print_confidence (check_buy_signal
      ([⟨0, 1, none, none, none, none, none⟩] : List IndicatorRow)).2.2 = 0 :=
  short_input_decision [⟨0, 1, none, none, none, none, none⟩] (by decide)

/-- C2 counterexample: a decision with exactly 2 true flags reports a
confidence of 66, while `round(100 * 2 / 3) = 67` — the code truncates, it
does not round. -/
theorem confidence_counterexample :
    sumValues (check_buy_signal
        [⟨0, 1, some 1, some 2, some 20, none, none⟩,
         ⟨1, 1, some 3, some 2, some 40, none, none⟩]).2.2 = 2
  ∧ print_confidence (check_buy_signal
        [⟨0, 1, some 1, some 2, some 20, none, none⟩,
         ⟨1, 1, some 3, some 2, some 40, none, none⟩]).2.2 = 66
  ∧ round ((100 * (2 : ℚ)) / 3) = 67 := by
  have hs : (check_buy_signal
      [⟨0, 1, some 1, some 2, some 20, none, none⟩,
       ⟨1, 1, some 3, some 2, some 40, none, none⟩]).2.2 = threeFlags true true false := by
    decide
  refine ⟨by rw [hs]; rfl, ?_, by norm_num [round_eq]⟩
  rw [hs]
  simp only [print_confidence, sumValues_threeFlags, Bool.toNat_true, Bool.toNat_false]
  norm_num

/-- C2 as amended: for every decision of the evaluator on an input of length
≥ 2, the reported confidence equals `⌊100 * trueFlagCount / 3⌋` and is one of
0, 33, 66, 100 (66 for two true flags, not 67). -/
theorem confidence_floor_values (df : List IndicatorRow) (h : 2 ≤ df.length) :
    print_confidence (check_buy_signal df).2.2
        = ⌊(100 * (sumValues (check_buy_signal df).2.2 : ℚ)) / 3⌋
  ∧ (print_confidence (check_buy_signal df).2.2 = 0
      ∨ print_confidence (check_buy_signal df).2.2 = 33
      ∨ print_confidence (check_buy_signal df).2.2 = 66
      ∨ print_confidence (check_buy_signal df).2.2 = 100) := by
  rw [check_buy_signal_eq df h]
  rcases Bool.eq_false_or_eq_true (smaFlag df) with h1 | h1 <;>
  rcases Bool.eq_false_or_eq_true (rsiFlag df) with h2 | h2 <;>
  rcases Bool.eq_false_or_eq_true (macdFlag df) with h3 | h3 <;>
  simp only [h1, h2, h3] <;>
  simp only [print_confidence, sumValues_threeFlags, Bool.toNat_true, Bool.toNat_false] <;>
  norm_num

/-- Witness for the amended C2 at a concrete two-row input. -/
theorem confidence_floor_values_witness :
    print_confidence (check_buy_signal
        [⟨0, 1, none, none, none, none, none⟩, ⟨1, 1, none, none, none, none, none⟩]).2.2
        = ⌊(100 * (sumValues (check_buy_signal
            [⟨0, 1, none, none, none, none, none⟩,
             ⟨1, 1, none, none, none, none, none⟩]).2.2 : ℚ)) / 3⌋
  ∧ (print_confidence (check_buy_signal
        [⟨0, 1, none, none, none, none, none⟩, ⟨1, 1, none, none, none, none, none⟩]).2.2 = 0
      ∨ print_confidence (check_buy_signal
        [⟨0, 1, none, none, none, none, none⟩, ⟨1, 1, none, none, none, none, none⟩]).2.2 = 33
      ∨ print_confidence (check_buy_signal
        [⟨0, 1, none, none, none, none, none⟩, ⟨1, 1, none, none, none, none, none⟩]).2.2 = 66
      ∨ print_confidence (check_buy_signal
        [⟨0, 1, none, none, none, none, none⟩, ⟨1, 1, none, none, none, none, none⟩]).2.2 = 100) :=
  confidence_floor_values
    [⟨0, 1, none, none, none, none, none⟩, ⟨1, 1, none, none, none, none, none⟩] (by decide)

/-- C3: on any input of length ≥ 2, a flag whose referenced indicator cell is
undefined (NaN) on either of the last two rows comes out `false` in the
returned dict — undefined values never satisfy a crossover comparison and
never raise. -/
theorem undefined_flags_false (df : List IndicatorRow) (h : 2 ≤ df.length) :
    (((prevRow df).sma20 = none ∨ (prevRow df).sma50 = none
        ∨ (curRow df).sma20 = none ∨ (curRow df).sma50 = none) →
      List.lookup "sma_crossover" (check_buy_signal df).2.2 = some false)
  ∧ (((prevRow df).rsi = none ∨ (curRow df).rsi = none) →
      List.lookup "rsi_oversold" (check_buy_signal df).2.2 = some false)
  ∧ (((prevRow df).macd = none ∨ (prevRow df).macdSignal = none
        ∨ (curRow df).macd = none ∨ (curRow df).macdSignal = none) →
      List.lookup "macd_crossover" (check_buy_signal df).2.2 = some false) := by
  rw [check_buy_signal_eq df h]
  rw [lookup_threeFlags_sma, lookup_threeFlags_rsi, lookup_threeFlags_macd]
  refine ⟨?_, ?_, ?_⟩
  · rintro (hn | hn | hn | hn) <;>
      simp [smaFlag, hn, oLt_none_left, oLt_none_right, oGt_none_left, oGt_none_right]
  · rintro (hn | hn) <;> simp [rsiFlag, hn, oLtC_none, oGeC_none]
  · rintro (hn | hn | hn | hn) <;>
      simp [macdFlag, hn, oLt_none_left, oLt_none_right, oGt_none_left, oGt_none_right]

/-- Witness for C3 at a concrete two-row input with undefined cells. -/
theorem undefined_flags_false_witness :
    List.lookup "sma_crossover" (check_buy_signal
        [⟨0, 1, none, none, none, none, none⟩, ⟨1, 2, none, none, none, none, none⟩]).2.2
      = some false :=
  (undefined_flags_false
      [⟨0, 1, none, none, none, none, none⟩, ⟨1, 2, none, none, none, none, none⟩]
      (by decide)).1 (Or.inl rfl)

/-- C5: with all four SMA cells defined on the last two rows, the
`sma_crossover` flag is true exactly when yesterday's SMA20 was strictly below
SMA50 and today's SMA20 is strictly above SMA50; equality on either row makes
it false. -/
theorem sma_crossover_iff (df : List IndicatorRow) (h : 2 ≤ df.length)
    (p20 p50 c20 c50 : ℚ)
    (hp20 : (prevRow df).sma20 = some p20) (hp50 : (prevRow df).sma50 = some p50)
    (hc20 : (curRow df).sma20 = some c20) (hc50 : (curRow df).sma50 = some c50) :
    (List.lookup "sma_crossover" (check_buy_signal df).2.2 = some true
        ↔ (p20 < p50 ∧ c50 < c20))
  ∧ ((p20 = p50 ∨ c20 = c50) →
      List.lookup "sma_crossover" (check_buy_signal df).2.2 = some false) := by
  rw [check_buy_signal_eq df h, lookup_threeFlags_sma]
  constructor
  · simp [smaFlag, oLt, oGt, hp20, hp50, hc20, hc50]
  · rintro (hq | hq) <;> simp [smaFlag, oLt, oGt, hp20, hp50, hc20, hc50, hq]

/-- Witness for C5 at a concrete two-row input with defined SMA cells. -/
theorem sma_crossover_iff_witness :
    List.lookup "sma_crossover" (check_buy_signal
        [⟨0, 1, some 1, some 2, none, none, none⟩,
         ⟨1, 1, some 3, some 2, none, none, none⟩]).2.2 = some true
      ↔ ((1 : ℚ) < 2 ∧ (2 : ℚ) < 3) :=
  (sma_crossover_iff
      [⟨0, 1, some 1, some 2, none, none, none⟩, ⟨1, 1, some 3, some 2, none, none, none⟩]
      (by decide) 1 2 3 2 rfl rfl rfl rfl).1

/-- C6: for every close series and every valid index `i`, the SMA20 cell of
row `i` is the mean of the 20 closes ending at `i` when `i ≥ 19` and is
undefined otherwise, and the SMA50 cell likewise with window 50 from `i ≥ 49`
— so SMA20 is undefined exactly at indices 0..18 and SMA50 exactly at
0..48. -/
theorem sma_window_spec (df : List PricePoint) (i : Nat) (h : i < df.length) :
    (((calculate_indicators df).getD i dRow).sma20
        = if 19 ≤ i then
            some ((((df.map PricePoint.close).drop (i - 19)).take 20).sum / 20)
          else none)
  ∧ (((calculate_indicators df).getD i dRow).sma50
        = if 49 ≤ i then
            some ((((df.map PricePoint.close).drop (i - 49)).take 50).sum / 50)
          else none) := by
  rw [calculate_indicators_getD df i h]
  have hlen : i < (df.map PricePoint.close).length := by simpa using h
  constructor
  · show (rollingMean 20 (df.map PricePoint.close)).getD i none = _
    rw [rollingMean_getD 20 _ i hlen]
    by_cases hc : 19 ≤ i
    · rw [if_pos (show 20 ≤ i + 1 by omega), if_pos hc,
        show i + 1 - 20 = i - 19 by omega]
      norm_num
    · rw [if_neg (show ¬ 20 ≤ i + 1 by omega), if_neg hc]
  · show (rollingMean 50 (df.map PricePoint.close)).getD i none = _
    rw [rollingMean_getD 50 _ i hlen]
    by_cases hc : 49 ≤ i
    · rw [if_pos (show 50 ≤ i + 1 by omega), if_pos hc,
        show i + 1 - 50 = i - 49 by omega]
      norm_num
    · rw [if_neg (show ¬ 50 ≤ i + 1 by omega), if_neg hc]

/-- Witness for C6 at index 19 of a concrete 20-point constant series. -/
theorem sma_window_spec_witness :
    (((calculate_indicators (List.replicate 20 ⟨0, 1⟩)).getD 19 dRow).sma20
        = if 19 ≤ 19 then
            some (((((List.replicate 20 (⟨0, 1⟩ : PricePoint)).map
                PricePoint.close).drop (19 - 19)).take 20).sum / 20)
          else none)
  ∧ (((calculate_indicators (List.replicate 20 ⟨0, 1⟩)).getD 19 dRow).sma50
        = if 49 ≤ 19 then
            some (((((List.replicate 20 (⟨0, 1⟩ : PricePoint)).map
                PricePoint.close).drop (19 - 49)).take 50).sum / 50)
          else none) :=
  sma_window_spec (List.replicate 20 ⟨0, 1⟩) 19 (by decide)

/-- C9: the price-fetch check raises the no-data error exactly when the
source's series is empty or every close is missing, and otherwise returns the
series unchanged. -/
theorem fetch_no_data_iff (df : List (Option ℚ)) :
    ((∃ e, fetch_stock_data df = Except.error e) ↔ (df = [] ∨ ∀ c ∈ df, c = none))
  ∧ (¬(df = [] ∨ ∀ c ∈ df, c = none) → fetch_stock_data df = Except.ok df) := by
  have hcond : (df.isEmpty || df.all (fun c => c.isNone)) = true
      ↔ (df = [] ∨ ∀ c ∈ df, c = none) := by
    simp [List.isEmpty_iff, List.all_eq_true]
  unfold fetch_stock_data
  by_cases hb : (df.isEmpty || df.all (fun c => c.isNone)) = true
  · rw [if_pos hb]
    refine ⟨⟨fun _ => hcond.mp hb, fun _ => ⟨_, rfl⟩⟩, fun hn => absurd (hcond.mp hb) hn⟩
  · rw [if_neg hb]
    refine ⟨⟨fun ⟨e, he⟩ => absurd he (by simp), fun hp => absurd (hcond.mpr hp) hb⟩,
      fun _ => rfl⟩

/-- Witness for C9's ok branch at a concrete non-degenerate series. -/
theorem fetch_no_data_iff_witness :
    fetch_stock_data [some 1] = Except.ok [some 1] :=
  (fetch_no_data_iff [some 1]).2 (by simp)

/-- C10: the Indicator Engine keeps the frame of its input — the enriched
sequence has the same length, the same timestamps and the same closes as the
input; it only fills the indicator columns. -/
theorem indicators_preserve_frame (df : List PricePoint) :
    (calculate_indicators df).length = df.length
  ∧ (calculate_indicators df).map IndicatorRow.ts = df.map PricePoint.ts
  ∧ (calculate_indicators df).map IndicatorRow.close = df.map PricePoint.close := by
  refine ⟨length_calculate_indicators df, ?_, ?_⟩
  · unfold calculate_indicators
    rw [List.map_map]
    exact range_map_getD df ⟨0, 0⟩ PricePoint.ts
  · unfold calculate_indicators
    rw [List.map_map]
    exact range_map_getD df ⟨0, 0⟩ PricePoint.close
